import Mathlib

/-!
Verification of the magicrowspy enrichment core against its specification.

The definitions below are a shallow embedding of the Python sources:
  * `src/magicrowspy/config/models.py`       — configuration data model
  * `src/magicrowspy/utils/schema_generator.py` — `generate_json_schema`
  * `src/magicrowspy/core/provider_handler.py`  — response extraction
  * `src/magicrowspy/core/enricher.py`          — orchestration

Python dictionaries are modelled as association lists in insertion order,
Python `None` as `Json.null`, and `pandas.NA` as `Json.na`.  Fallible code
returns `Except String`.
-/

/-- JSON-like values: models both the JSON-schema dictionaries built by
`schema_generator.py` and the Python values flowing through the enricher.
`null` is Python `None`; `na` is the `pandas.NA` absence marker used by the
result assembler.  Objects are association lists in insertion order, the
order Python dicts preserve. -/
inductive Json where
  | null : Json
  | na : Json
  | bool : Bool → Json
  | str : String → Json
  | arr : List Json → Json
  | obj : List (String × Json) → Json

/-- Looks a key up in an object; `none` for non-objects or missing keys. -/
def json_lookup (j : Json) (k : String) : Option Json :=
  match j with
  | .obj kvs => kvs.lookup k
  | _ => none

/-- Python `dict.get(k)`: the stored value, or `None` when the key is absent. -/
def dict_get (kvs : List (String × Json)) (k : String) : Json :=
  (kvs.lookup k).getD Json.null

/-- Python `d[k] = v` on an insertion-ordered dict: replace in place when the
key exists, append otherwise. -/
def dict_insert {α : Type} : List (String × α) → String → α → List (String × α)
  | [], k, v => [(k, v)]
  | (k', v') :: rest, k, v =>
    if k' = k then (k', v) :: rest else (k', v') :: dict_insert rest k v

/-- Embedding of `OutputCardinality` from `config/models.py` (validated enum: "single" or
"multiple"). -/
inductive OutputCardinality where
  | single : OutputCardinality
  | multiple : OutputCardinality
deriving DecidableEq

/-- Embedding of `RunMode` from `config/models.py`. -/
inductive RunMode where
  | preview : RunMode
  | full : RunMode
deriving DecidableEq

/-- Embedding of `OutputCategory` from `config/models.py`. -/
structure OutputCategory where
  name : String
  description : String
deriving DecidableEq

/-- Embedding of `OutputConfig` from `config/models.py`.  `outputType` is kept as the raw
string of the Python `str`-valued enum ("text" | "category" | "number" |
"json"); `generate_json_schema` compares it literally, so an out-of-enum
string exercises its unsupported-type branch exactly as in Python. -/
structure OutputConfig where
  name : String
  prompt : String
  outputType : String
  outputCardinality : OutputCardinality
  outputCategories : Option (List OutputCategory)
  contextColumns : Option (List String)
  includeReasoning : Bool
deriving DecidableEq

/-- Embedding of `BaseProviderConfig` (with the `apiKey` payload of
`OpenAIProviderConfig`) from `config/models.py`. -/
structure BaseProviderConfig where
  integrationName : String
  apiKey : String
deriving DecidableEq

/-- Schema of the `reasoning` member added by `generate_json_schema`
(`schema_generator.py` lines 101-104). -/
def reasoning_prop_schema : Json :=
  Json.obj [("type", Json.str "string"),
            ("description", Json.str "Explanation for why the value was chosen or generated.")]

/-- The `prop_schema` construction of `generate_json_schema`
(`schema_generator.py` lines 32-61): the base value shape per declared type.
Raises (here: `Except.error`) for a category output without categories and
for an unsupported type. -/
def prop_schema_base (c : OutputConfig) : Except String Json :=
  if c.outputType = "text" then
    .ok (Json.obj [("type", Json.str "string"),
                   ("description", Json.str ("Text output for " ++ c.name))])
  else if c.outputType = "number" then
    .ok (Json.obj [("type", Json.str "number"),
                   ("description", Json.str ("Numeric output for " ++ c.name))])
  else if c.outputType = "category" then
    match c.outputCategories with
    | none =>
      .error ("Output " ++ c.name ++ " is type category but has no outputCategories defined.")
    | some [] =>
      .error ("Output " ++ c.name ++ " is type category but has no outputCategories defined.")
    | some cats =>
      .ok (Json.obj [("type", Json.str "string"),
                     ("description", Json.str ("Categorical output for " ++ c.name)),
                     ("enum", Json.arr (cats.map (fun k => Json.str k.name)))])
  else if c.outputType = "json" then
    .ok (Json.obj [("type", Json.str "string"),
                   ("description", Json.str ("JSON string output for " ++ c.name ++ ". The content should be valid JSON."))])
  else
    .error ("Unsupported outputType: " ++ c.outputType)

/-- Cardinality handling of `generate_json_schema` (`schema_generator.py`
lines 63-74): multiple wraps the base shape in an array schema. -/
def apply_cardinality (c : OutputConfig) (p : Json) : Json :=
  match c.outputCardinality with
  | .multiple =>
    Json.obj [("type", Json.str "array"),
              ("description", Json.str ("List of " ++ c.outputType ++ " values for " ++ c.name)),
              ("items", p)]
  | .single => p

/-- Reasoning wrapping of `generate_json_schema` (`schema_generator.py`
lines 76-119): when the specification flag and the run-level flag are both
set, the field schema becomes an object requiring `value` and `reasoning`. -/
def apply_reasoning (c : OutputConfig) (rn : Bool) (p : Json) : Json :=
  if c.includeReasoning && rn then
    Json.obj [("type", Json.str "object"),
              ("description", Json.str ("Output value and reasoning for " ++ c.name)),
              ("properties", Json.obj [("value", p), ("reasoning", reasoning_prop_schema)]),
              ("required", Json.arr [Json.str "value", Json.str "reasoning"]),
              ("additionalProperties", Json.bool false)]
  else p

/-- Outer schema dictionary of `generate_json_schema` (`schema_generator.py`
lines 22-29 and 121-122): exactly one property named after the output,
required, with `additionalProperties: false`. -/
def json_schema_shell (name : String) (field : Json) : Json :=
  Json.obj [("type", Json.str "object"),
            ("properties", Json.obj [(name, field)]),
            ("required", Json.arr [Json.str name]),
            ("additionalProperties", Json.bool false)]

/-- Embedding of `generate_json_schema` from `utils/schema_generator.py`. -/
def generate_json_schema (c : OutputConfig) (rn : Bool) : Except String Json :=
  match prop_schema_base c with
  | .error e => .error e
  | .ok p => .ok (json_schema_shell c.name (apply_reasoning c rn (apply_cardinality c p)))

/-- Characters matched by Python's `\s` and stripped by `str.strip()`
(ASCII subset; the sources only rely on these). -/
def py_space (c : Char) : Bool :=
  c = ' ' || c = '\t' || c = '\n' || c = '\r' || c = '\x0B' || c = '\x0C'

/-- Python `str.strip()`. -/
def py_strip (s : String) : String :=
  String.mk (((s.data.dropWhile py_space).reverse.dropWhile py_space).reverse)

/-- Python `needle in haystack` on strings: substring containment. -/
def py_in (needle haystack : String) : Bool :=
  haystack.data.tails.any (fun t => needle.data.isPrefixOf t)

/-- Embedding of `ProviderHandler._extract_category_response` from
`core/provider_handler.py` lines 161-197: collect every declared category
name literally contained in the response text; first match for single
cardinality, all matches for multiple, and the raw content when nothing
(or no category list) is available. -/
def extract_category_response (content : String) (c : OutputConfig) : Json :=
  match c.outputCategories with
  | none => Json.str content
  | some cats =>
    if cats.isEmpty then Json.str content
    else
      let category_names := cats.map (fun k => k.name)
      let found_categories := category_names.filter (fun n => py_in n content)
      match found_categories with
      | [] => Json.str content
      | f :: fs =>
        match c.outputCardinality with
        | .single => Json.str f
        | .multiple => Json.arr ((f :: fs).map Json.str)

/-- Remainder consumed by the regex fragment `\s*(?:\n|$)` when tried at
backtracking priority: the greedy `\s*` prefix is shortened from `a` until
either a newline can be consumed or the end of the string is reached. -/
def tail_ws_go (t : List Char) : Nat → Option (List Char)
  | 0 =>
    if t.take 1 = ['\n'] then some (t.drop 1)
    else if t.isEmpty then some []
    else none
  | a + 1 =>
    if (t.drop (a + 1)).take 1 = ['\n'] then some (t.drop (a + 2))
    else if (t.drop (a + 1)).isEmpty then some []
    else tail_ws_go t a

/-- Matches `\s*(?:\n|$)` at the head of `t`, returning the unconsumed
remainder (the `$` alternative consumes nothing). -/
def tail_ws_match (t : List Char) : Option (List Char) :=
  tail_ws_go t (t.takeWhile py_space).length

/-- Lazy capture loop for the tail of the numbered-list regex
`(.*?)(?:\*\*\s*(?:\n|$))` of `_extract_text_response`: extend the capture
one character at a time (never across a newline, `.` does not match `\n`),
preferring the closing `**` as soon as it fits.  The fuel argument bounds
the loop by the remaining input length (each step consumes one character),
keeping the definition structurally recursive. -/
def numbered_cap_go : List Char → List Char → Nat → Option (String × List Char)
  | _, _, 0 => none
  | acc, rest, fuel + 1 =>
    match (if rest.take 2 = ['*', '*'] then tail_ws_match (rest.drop 2) else none) with
    | some r => some (String.mk acc, r)
    | none =>
      match rest with
      | [] => none
      | ch :: rs => if ch = '\n' then none else numbered_cap_go (acc ++ [ch]) rs fuel

/-- One attempt of the numbered-list regex
`(?:\d+\.\s*\*\*)(.*?)(?:\*\*\s*(?:\n|$))` at the start of `cs`
(`provider_handler.py` line 136): digits, a dot, optional whitespace, an
opening `**`, then the lazy capture. -/
def numbered_match_at (cs : List Char) : Option (String × List Char) :=
  let ds := cs.takeWhile Char.isDigit
  if ds.isEmpty then none
  else
    match cs.drop ds.length with
    | '.' :: r1 =>
      let r2 := r1.drop (r1.takeWhile py_space).length
      if r2.take 2 = ['*', '*'] then numbered_cap_go [] (r2.drop 2) ((r2.drop 2).length + 1) else none
    | _ => none

/-- The `re.findall` scan loop: try the matcher at every position left to
right, continuing after each (non-empty) match.  `fuel` bounds the scan by
the input length; every step consumes at least one character. -/
def findall_go (matcher : List Char → Option (String × List Char))
    (cs : List Char) : Nat → List String
  | 0 => []
  | fuel + 1 =>
    match matcher cs with
    | some (cap, rest) => cap :: findall_go matcher rest fuel
    | none =>
      match cs with
      | [] => []
      | _ :: rs => findall_go matcher rs fuel

/-- Embedding of `re.findall(r'(?:\d+\.\s*\*\*)(.*?)(?:\*\*\s*(?:\n|$))', content)` from
`_extract_text_response` (`provider_handler.py` line 136). -/
def findall_numbered (s : String) : List String :=
  findall_go numbered_match_at s.data (s.data.length + 1)

/-- One attempt of the bullet regex `(?:•|\*|-)\s*(.*?)(?:\n|$)` at the
start of `cs` (`provider_handler.py` line 142).  After a marker character
this always succeeds: the greedy `\s*` takes the whitespace run, the lazy
capture runs to the first newline or the end, and the terminating newline
(when present) is consumed. -/
def bullet_match_at (cs : List Char) : Option (String × List Char) :=
  match cs with
  | [] => none
  | m :: t =>
    if m = '•' || m = '*' || m = '-' then
      let u := t.drop (t.takeWhile py_space).length
      let cap := u.takeWhile (fun c => c ≠ '\n')
      let rest := u.drop cap.length
      some (String.mk cap, rest.drop 1)
    else none

/-- Embedding of `re.findall(r'(?:•|\*|-)\s*(.*?)(?:\n|$)', content)` from
`_extract_text_response` (`provider_handler.py` line 142). -/
def findall_bullets (s : String) : List String :=
  findall_go bullet_match_at s.data (s.data.length + 1)

/-- Python `content.split('\n')`. -/
def split_nl : List Char → List (List Char)
  | [] => [[]]
  | c :: rest =>
    if c = '\n' then [] :: split_nl rest
    else
      match split_nl rest with
      | [] => [[c]]
      | l :: ls => (c :: l) :: ls

/-- Embedding of `[line.strip() for line in content.split('\n') if line.strip()]` from
`_extract_text_response` (`provider_handler.py` line 149). -/
def nonempty_lines (content : String) : List String :=
  (((split_nl content.data).map (fun l => py_strip (String.mk l))).filter (fun l => l ≠ ""))

/-- Embedding of `re.sub(r'\*\*|\*|_', '', content)`: every asterisk and underscore is
removed (`provider_handler.py` line 155). -/
def remove_star_markers (cs : List Char) : List Char :=
  cs.filter (fun c => c ≠ '*' && c ≠ '_')

/-- The three-backtick fence of the code-block regex. -/
def code_fence : List Char :=
  [Char.ofNat 96, Char.ofNat 96, Char.ofNat 96]

/-- Lazy search for the closing fence of `^```.*?```$` (DOTALL, no
MULTILINE): the first position whose fence is followed by nothing or by a
single trailing newline (the `$` of `re`).  Returns the unmatched
remainder. -/
def code_close_go : List Char → Nat → Option (List Char)
  | _, 0 => none
  | cs, fuel + 1 =>
    if cs.take 3 = code_fence && ((cs.drop 3).isEmpty || cs.drop 3 = ['\n']) then
      some (cs.drop 3)
    else
      match cs with
      | [] => none
      | _ :: rs => code_close_go rs fuel

/-- Embedding of `re.sub(r'^```.*?```$', '', clean_text, flags=re.DOTALL)` from
`_extract_text_response` (`provider_handler.py` line 156): `^` only matches
at the start of the string, so at most one block is removed. -/
def remove_code_block (cs : List Char) : List Char :=
  if cs.take 3 = code_fence then
    match code_close_go (cs.drop 3) (cs.length + 1) with
    | some rest => rest
    | none => cs
  else cs

/-- Embedding of `re.sub(r'\n\n+', '\n\n', clean_text)` (`provider_handler.py` line
157): collapse every run of two or more newlines to exactly two. -/
def collapse_nl_go : List Char → Nat → List Char
  | cs, 0 => cs
  | cs, fuel + 1 =>
    match cs with
    | '\n' :: '\n' :: rest =>
      '\n' :: '\n' :: collapse_nl_go (rest.dropWhile (fun c => c = '\n')) fuel
    | c :: rest => c :: collapse_nl_go rest fuel
    | [] => []

/-- The markup-stripping fallback of `_extract_text_response`
(`provider_handler.py` lines 153-159). -/
def clean_text (content : String) : String :=
  let s1 := remove_star_markers content.data
  let s2 := remove_code_block s1
  let s3 := collapse_nl_go s2 (s2.length + 1)
  py_strip (String.mk s3)

/-- Embedding of `ProviderHandler._extract_text_response` from
`core/provider_handler.py` lines 122-159: numbered-bold items first, then
bullet items, then (for multiple cardinality) a line split, and finally the
cleaned text. -/
def extract_text_response (content : String) (c : OutputConfig) : Json :=
  let numbered_items := findall_numbered content
  if numbered_items ≠ [] then
    Json.arr (numbered_items.map (fun s => Json.str (py_strip s)))
  else
    let bullet_items := findall_bullets content
    if bullet_items ≠ [] then
      Json.arr (bullet_items.map (fun s => Json.str (py_strip s)))
    else
      if c.outputCardinality = OutputCardinality.multiple ∧ (nonempty_lines content).length > 1 then
        Json.arr ((nonempty_lines content).map Json.str)
      else
        Json.str (clean_text content)

/-- Outcome of one OpenAI API request made inside
`Enricher._call_provider` (`core/enricher.py` lines 693-744). -/
inductive ProviderOutcome where
  | success : Json → ProviderOutcome
  | transientError : ProviderOutcome
  | requestError : ProviderOutcome

/-- Embedding of `Enricher._call_provider` from `core/enricher.py` lines 611-744,
abstracted over the provider: the function issues exactly one
`client.chat.completions.create` call (there is no loop; the `tenacity`
imports at line 12 are never used), catches every exception and returns
`None` on any failure.  `calls` is the sequence of outcomes the provider
would produce on successive requests; the result pairs the returned value
with the number of requests actually issued. -/
def call_provider (calls : List ProviderOutcome) : Option Json × Nat :=
  match calls with
  | [] => (none, 0)
  | outcome :: _ =>
    match outcome with
    | .success v => (some v, 1)
    | .transientError => (none, 1)
    | .requestError => (none, 1)

/-- Embedding of `Enricher._call_provider_with_retry` from `core/enricher.py` lines
746-749, verbatim: a placeholder that ignores its arguments and returns
`None`; it is never called by the enrichment paths. -/
def call_provider_with_retry (_calls : List ProviderOutcome) : Option Json :=
  none

/-- Row-index bookkeeping of `Enricher._enrich_pandas`
(`core/enricher.py` lines 153-300), tracking only the index labels of the
frames involved.  In preview mode the local `df` is reassigned to
`df.head(previewRowCount)` (line 169); one result row is produced per row
of that frame; the final frame is built by reindexing the results to
`df.index` and concatenating along columns (lines 289-299), so its index is
the index of the (possibly truncated) `df` in both branches — the
`len(results_df) < len(df)` alignment branch compares against the already
truncated `df` and can never fire. -/
def enrich_pandas_index (index : List Nat) (mode : RunMode) (previewRowCount : Nat) :
    List Nat :=
  let df := if mode = RunMode.preview then index.take previewRowCount else index
  let results := df
  if mode = RunMode.preview ∧ results.length < df.length then
    df
  else
    df

/-- The `row_result.get("value") is None` disjunction guarding the first branch
of the expand assembly (`core/enricher.py` line 509): the per-output result
is Python `None`, or a dict whose `value` member is missing or `None`. -/
def is_none_or_value_none (r : Json) : Bool :=
  match r with
  | .null => true
  | .obj kvs =>
    match dict_get kvs "value" with
    | .null => true
    | _ => false
  | _ => false

/-- Embedding of `result_dict.get("reasoning") if isinstance(result_dict, dict) else
None` (`core/enricher.py` lines 512 and 558). -/
def reasoning_of (r : Json) : Json :=
  match r with
  | .obj kvs => dict_get kvs "reasoning"
  | _ => .null

/-- The `values_to_process` computation of the expand (newRows) assembly in
`Enricher._enrich_polars` (`core/enricher.py` lines 504-561): the resolved
value collection for one output of one row.  `result` is
`row_result.get(output_name)` with `Json.null` for Python `None`.  The
trailing Python branches after the SINGLE case are unreachable because the
validated cardinality enum has exactly two members. -/
def values_to_process (c : OutputConfig) (rn : Bool) (result : Json) : List Json :=
  if is_none_or_value_none result then
    [Json.obj [("value", Json.null), ("reasoning", reasoning_of result)]]
  else
    match c.outputCardinality with
    | .multiple =>
      let pair :=
        if c.includeReasoning && rn then
          match result with
          | .obj kvs =>
            match dict_get kvs "value" with
            | .arr l => (if l.isEmpty then [Json.null] else l, dict_get kvs "reasoning")
            | _ => ([Json.null], dict_get kvs "reasoning")
          | _ => ([Json.null], reasoning_of result)
        else
          match result with
          | .arr l => (if l.isEmpty then [Json.null] else l, Json.null)
          | _ => ([result], Json.null)
      let value_list := if pair.1.isEmpty then [Json.null] else pair.1
      value_list.map (fun v => Json.obj [("value", v), ("reasoning", pair.2)])
    | .single => [result]

/-- Embedding of `itertools.product(*output_data_for_product)` as a list of
combinations, rightmost factor varying fastest. -/
def list_product {α : Type} : List (List α) → List (List α)
  | [] => [[]]
  | xs :: rest => xs.flatMap (fun x => (list_product rest).map (fun t => x :: t))

/-- Python subscript `item[k]`: `KeyError` on a dict without the key,
`TypeError` on anything that is not a dict. -/
def py_index (item : Json) (k : String) : Except String Json :=
  match item with
  | .obj kvs =>
    match kvs.lookup k with
    | some v => .ok v
    | none => .error ("KeyError: " ++ k)
  | _ => .error "TypeError: string indices must be integers"

/-- Row construction for one Cartesian-product combination
(`core/enricher.py` lines 570-577): starting from a copy of the context
data, store `result_item['value']` (or `pd.NA`) under the output name and,
when reasoning is on, `result_item['reasoning']` (or `pd.NA`) under the
reasoning name. -/
def build_new_row (context : List (String × Json)) (outputs : List OutputConfig)
    (rn : Bool) (combo : List Json) : Except String (List (String × Json)) :=
  (outputs.zip combo).foldlM
    (fun row oc => do
      let v ← py_index oc.2 "value"
      let row := dict_insert row oc.1.name (match v with | .null => Json.na | _ => v)
      if oc.1.includeReasoning && rn then
        let r ← py_index oc.2 "reasoning"
        pure (dict_insert row (oc.1.name ++ "_reasoning")
          (match r with | .null => Json.na | _ => r))
      else
        pure row)
    context

/-- Expand (newRows) assembly for one processed row
(`core/enricher.py` lines 496-577): resolve each output's value collection,
take the Cartesian product, and build one new row per combination.
`row_result` maps an output name to its stored result (`Json.null` both for
a stored `None` and for an absent key, as `dict.get` returns).  An
exception raised while building a row (Python's `result_item['value']` on a
non-dict) aborts the whole enrichment. -/
def expand_row (outputs : List OutputConfig) (rn : Bool)
    (context : List (String × Json)) (row_result : String → Json) :
    Except String (List (List (String × Json))) :=
  let data := outputs.map (fun o => values_to_process o rn (row_result o.name))
  if data.isEmpty then
    .ok []
  else
    (list_product data).mapM (build_new_row context outputs rn)

/-- Column bookkeeping of the no-results branch of `Enricher._enrich_polars`
(`core/enricher.py` lines 398-405).  `output_columns = config.contextColumns
if config.contextColumns else []` binds `output_columns` to the very list
object held by the configuration whenever that list is non-empty, so the
`output_columns.append(...)` calls in the loop mutate
`config.contextColumns` in place.  The result pairs the computed
`output_columns` with the value of `config.contextColumns` after the block
runs. -/
def polars_empty_results_columns (contextColumns : List String)
    (outputs : List OutputConfig) (rn : Bool) : List String × List String :=
  let output_columns :=
    (if contextColumns.isEmpty then [] else contextColumns) ++
      outputs.flatMap (fun o =>
        o.name :: (if o.includeReasoning && rn then [o.name ++ "_reasoning"] else []))
  (output_columns, if contextColumns.isEmpty then contextColumns else output_columns)

/-- Per-output schema-generation and provider-call step of
`Enricher._enrich_polars` (`core/enricher.py` lines 363-393): a schema
generation failure is caught, the output's result is set to `None` and the
loop continues — the provider is not called.  `provider` maps the generated
schema to `_call_provider`'s return value; the second component counts
provider calls made. -/
def polars_output_step (c : OutputConfig) (rn : Bool)
    (provider : Json → Option Json) : Option Json × Nat :=
  match generate_json_schema c rn with
  | .error _ => (none, 0)
  | .ok schema =>
    (match provider schema with
     | some (.obj kvs) => kvs.lookup c.name
     | _ => none, 1)

/-- Embedding of `Enricher.__init__` from `core/enricher.py` lines 65-83: reject an
empty provider list, then fold the configurations into a name-keyed dict;
a duplicate `integrationName` overwrites the earlier entry (with a logged
warning, never an error). -/
def enricher_init (providers : List BaseProviderConfig) :
    Except String (List (String × BaseProviderConfig)) :=
  if providers.isEmpty then
    .error "At least one provider configuration must be supplied."
  else
    .ok (providers.foldl (fun d p => dict_insert d p.integrationName p) [])

/-- Embedding of the provider re-resolution at the top of
`Enricher._enrich_polars` (`core/enricher.py` line 310):
`next((p for p in self.providers if p.integrationName == ...), None)`.
`self.providers` is a dict, so the generator iterates its string keys, and
evaluating `p.integrationName` on a `str` raises `AttributeError` as soon
as `next` pulls the first key; only an empty dict (impossible, since
`__init__` rejects an empty provider list) would fall through to the
`None` default. -/
def polars_resolve_provider (providers : List (String × BaseProviderConfig)) :
    Except String (Option BaseProviderConfig) :=
  match providers with
  | [] => .ok none
  | _ :: _ => .error "AttributeError: str object has no attribute integrationName"

/-- The expand (newRows) run of `Enricher._enrich_polars`
(`core/enricher.py` lines 302-590) at the granularity of the assembled
output rows: the provider re-resolution at line 310 gates the whole body
(line 312 raises when it yields `None`), so the per-row assembly of lines
496-577 (modelled by `expand_row`) sits in a branch that no call can
reach.  `contexts` and `row_results` give, per processed row, the
context-column data and the per-output results the body would work
from. -/
def enrich_polars_newrows_rows (providers : List (String × BaseProviderConfig))
    (outputs : List OutputConfig) (rn : Bool)
    (contexts : List (List (String × Json))) (row_results : List (String → Json)) :
    Except String (List (List (String × Json))) :=
  match polars_resolve_provider providers with
  | .error e => .error e
  | .ok none => .error "Provider not found."
  | .ok (some _) =>
    (contexts.zip row_results).foldlM
      (fun acc cr => do
        let rows ← expand_row outputs rn cr.1 cr.2
        pure (acc ++ rows))
      []

/-- Context-column state of the configuration through one
`Enricher._enrich_polars` call: the `AttributeError` at line 310 (or the
`ValueError` at line 312) aborts the call before anything touches the
configuration; in the gated body, the only assignment through a
configuration field is the aliased append of the no-results branch
(lines 398-405, modelled by `polars_empty_results_columns`). -/
def enrich_polars_context_columns_after (providers : List (String × BaseProviderConfig))
    (contextColumns : List String) (outputs : List OutputConfig) (rn : Bool)
    (anyRowResults : Bool) : Except String (List String) :=
  match polars_resolve_provider providers with
  | .error e => .error e
  | .ok none => .error "Provider not found."
  | .ok (some _) =>
    .ok (if anyRowResults then contextColumns
         else (polars_empty_results_columns contextColumns outputs rn).2)

/-- Context-column state of the configuration through one `enrich` call
(`core/enricher.py` lines 85-151, dispatching on the backend).  The pandas
path (lines 153-300) contains no assignment to any attribute of `config`
— every use is a read (`config.mode`, `config.outputs`,
`getattr(config, ...)`) — so the configuration state passes through it
unchanged; the polars path is `enrich_polars_context_columns_after`. -/
def enrich_context_columns_after (isPandas : Bool)
    (providers : List (String × BaseProviderConfig)) (contextColumns : List String)
    (outputs : List OutputConfig) (rn : Bool) (anyRowResults : Bool) :
    Except String (List String) :=
  if isPandas then .ok contextColumns
  else enrich_polars_context_columns_after providers contextColumns outputs rn anyRowResults

mutual

/-- All values stored under an `"enum"` key anywhere inside a schema
value, in document order. -/
def enumsIn : Json → List Json
  | .obj kvs => enumsInKVs kvs
  | .arr xs => enumsInArr xs
  | _ => []

/-- Collector `enumsIn` over the entries of an object. -/
def enumsInKVs : List (String × Json) → List Json
  | [] => []
  | (k, v) :: rest => (if k = "enum" then [v] else []) ++ enumsIn v ++ enumsInKVs rest

/-- Collector `enumsIn` over the elements of an array. -/
def enumsInArr : List Json → List Json
  | [] => []
  | v :: rest => enumsIn v ++ enumsInArr rest

end

/-- Strings carry no enums. -/
theorem enumsInArr_str_names (cats : List OutputCategory) :
    enumsInArr (cats.map (fun k => Json.str k.name)) = [] := by
  induction cats with
  | nil => simp [enumsInArr]
  | cons k ks ih => simp [enumsInArr, enumsIn, ih]

/-- A plain text output specification with reasoning disabled in the
specification itself. -/
def cfg_text_plain : OutputConfig :=
  ⟨"x", "p", "text", .single, none, none, false⟩

/-- A plain text output specification with the specification-level
reasoning flag set (the model default). -/
def cfg_text_reasoned : OutputConfig :=
  ⟨"x", "p", "text", .single, none, none, true⟩

/-- A category output specification with two declared categories. -/
def cfg_sentiment : OutputConfig :=
  ⟨"sentiment", "p", "category", .single,
   some [⟨"Positive", "good"⟩, ⟨"Negative", "bad"⟩], none, false⟩

/-- A category output specification whose category list is empty. -/
def cfg_empty_cats : OutputConfig :=
  ⟨"x", "p", "category", .single, some [], none, true⟩

/-- The category output of the spec's expand scenario: cardinality
multiple, reasoning off. -/
def cfg_sentiment_multi : OutputConfig :=
  ⟨"sentiment", "p", "category", .multiple,
   some [⟨"Positive", "good"⟩, ⟨"Negative", "bad"⟩], none, false⟩

/-- C4: for every output specification of type `category` with a non-empty
category list, the generated contract has exactly one top-level field named
after the specification (required, `additionalProperties: false` — the
`json_schema_shell`), and the enumerated values occurring in that field's
schema are exactly the declared category names, in declared order. -/
theorem c4_category_enum (c : OutputConfig) (rn : Bool) (cats : List OutputCategory)
    (h1 : c.outputType = "category") (h2 : c.outputCategories = some cats)
    (h3 : cats ≠ []) :
    ∃ fd, generate_json_schema c rn = .ok (json_schema_shell c.name fd) ∧
      enumsIn fd = [Json.arr (cats.map (fun k => Json.str k.name))] := by
  obtain ⟨k, ks, rfl⟩ : ∃ k ks, cats = k :: ks := by
    cases cats with
    | nil => exact absurd rfl h3
    | cons k ks => exact ⟨k, ks, rfl⟩
  have hbase : prop_schema_base c =
      .ok (Json.obj [("type", Json.str "string"),
                     ("description", Json.str ("Categorical output for " ++ c.name)),
                     ("enum", Json.arr ((k :: ks).map (fun j => Json.str j.name)))]) := by
    simp [prop_schema_base, h1, h2]
  refine ⟨apply_reasoning c rn (apply_cardinality c
    (Json.obj [("type", Json.str "string"),
               ("description", Json.str ("Categorical output for " ++ c.name)),
               ("enum", Json.arr ((k :: ks).map (fun j => Json.str j.name)))])), ?_, ?_⟩
  · simp [generate_json_schema, hbase]
  · cases hc : c.outputCardinality <;> cases hr : (c.includeReasoning && rn) <;>
      simp [apply_cardinality, apply_reasoning, hc, hr, reasoning_prop_schema,
        enumsIn, enumsInKVs, enumsInArr, enumsInArr_str_names]

/-- Witness for C4 at a concrete category specification. -/
theorem c4_category_enum_witness :
    cfg_sentiment.outputType = "category" ∧
    cfg_sentiment.outputCategories =
      some [⟨"Positive", "good"⟩, ⟨"Negative", "bad"⟩] ∧
    ([(⟨"Positive", "good"⟩ : OutputCategory), ⟨"Negative", "bad"⟩] ≠ []) ∧
    ∃ fd, generate_json_schema cfg_sentiment false =
        .ok (json_schema_shell cfg_sentiment.name fd) ∧
      enumsIn fd = [Json.arr [Json.str "Positive", Json.str "Negative"]] :=
  ⟨rfl, rfl, by decide,
   c4_category_enum cfg_sentiment false [⟨"Positive", "good"⟩, ⟨"Negative", "bad"⟩]
     rfl rfl (by decide)⟩

/-- C6: for a category output specification whose category list is absent
or empty — and likewise for an unsupported declared type — contract
generation fails with a configuration error, and the per-output processing
step of the polars path performs zero provider calls (the error is caught
before the provider would be invoked). -/
theorem c6_config_error_before_provider_call (c : OutputConfig) (rn : Bool)
    (provider : Json → Option Json)
    (h : (c.outputType = "category" ∧
            (c.outputCategories = none ∨ c.outputCategories = some [])) ∨
         c.outputType ∉ (["text", "number", "category", "json"] : List String)) :
    (∃ msg, generate_json_schema c rn = .error msg) ∧
    polars_output_step c rn provider = (none, 0) := by
  have herr : ∃ msg, prop_schema_base c = .error msg := by
    rcases h with ⟨h1, h2 | h2⟩ | h1
    · exact ⟨"Output " ++ c.name ++ " is type category but has no outputCategories defined.",
        by simp [prop_schema_base, h1, h2]⟩
    · exact ⟨"Output " ++ c.name ++ " is type category but has no outputCategories defined.",
        by simp [prop_schema_base, h1, h2]⟩
    · simp only [List.mem_cons, List.not_mem_nil, or_false, not_or] at h1
      obtain ⟨n1, n2, n3, n4⟩ := h1
      exact ⟨"Unsupported outputType: " ++ c.outputType,
        by simp [prop_schema_base, n1, n2, n3, n4]⟩
  obtain ⟨msg, hmsg⟩ := herr
  exact ⟨⟨msg, by simp [generate_json_schema, hmsg]⟩,
         by simp [polars_output_step, generate_json_schema, hmsg]⟩

/-- Witness for C6 at a category specification with an empty category
list. -/
theorem c6_config_error_witness :
    (cfg_empty_cats.outputType = "category" ∧
       cfg_empty_cats.outputCategories = some []) ∧
    (∃ msg, generate_json_schema cfg_empty_cats true = .error msg) ∧
    polars_output_step cfg_empty_cats true (fun _ => none) = (none, 0) :=
  ⟨⟨rfl, rfl⟩,
   c6_config_error_before_provider_call cfg_empty_cats true (fun _ => none)
     (Or.inl ⟨rfl, Or.inr rfl⟩)⟩

/-- C3 (amended): for every output specification whose own
`includeReasoning` flag is set, generating the contract with the run-level
explanation flag disabled yields a schema whose single field carries some
shape `fd`, and generating it with the flag enabled yields the same schema
with that field replaced by an object with exactly the required members
`value` (carrying `fd` unchanged) and `reasoning`. -/
theorem c3_reasoning_round_trip (c : OutputConfig) (sd : Json)
    (h1 : c.includeReasoning = true)
    (h2 : generate_json_schema c false = .ok sd) :
    ∃ fd, sd = json_schema_shell c.name fd ∧
      generate_json_schema c true = .ok (json_schema_shell c.name (Json.obj
        [("type", Json.str "object"),
         ("description", Json.str ("Output value and reasoning for " ++ c.name)),
         ("properties", Json.obj [("value", fd), ("reasoning", reasoning_prop_schema)]),
         ("required", Json.arr [Json.str "value", Json.str "reasoning"]),
         ("additionalProperties", Json.bool false)])) := by
  cases hb : prop_schema_base c with
  | error e =>
    rw [generate_json_schema, hb] at h2
    exact absurd h2 (by simp)
  | ok p =>
    refine ⟨apply_cardinality c p, ?_, ?_⟩
    · rw [generate_json_schema, hb] at h2
      simp only [apply_reasoning, Bool.and_false, Bool.false_eq_true, if_false,
        Except.ok.injEq] at h2
      exact h2.symm
    · simp [generate_json_schema, hb, apply_reasoning, h1]

/-- C3 counterexample: for a specification whose own `includeReasoning`
flag is false, enabling the run-level explanation flag adds no
`value`/`reasoning` wrapper at all — the enabled contract equals the
disabled one and its field schema has no `required` or `properties`
members, refuting the claim for this specification. -/
theorem c3_counterexample :
    generate_json_schema cfg_text_plain true = generate_json_schema cfg_text_plain false ∧
    ∃ fd, generate_json_schema cfg_text_plain true = .ok (json_schema_shell "x" fd) ∧
      json_lookup fd "required" = none ∧ json_lookup fd "properties" = none := by
  refine ⟨rfl, Json.obj [("type", Json.str "string"),
    ("description", Json.str "Text output for x")], rfl, rfl, rfl⟩

/-- Witness for C3 at a concrete reasoning-enabled text specification. -/
theorem c3_reasoning_round_trip_witness :
    cfg_text_reasoned.includeReasoning = true ∧
    generate_json_schema cfg_text_reasoned false =
      .ok (json_schema_shell "x" (Json.obj [("type", Json.str "string"),
        ("description", Json.str "Text output for x")])) ∧
    ∃ fd, json_schema_shell "x" (Json.obj [("type", Json.str "string"),
        ("description", Json.str "Text output for x")]) = json_schema_shell cfg_text_reasoned.name fd ∧
      generate_json_schema cfg_text_reasoned true = .ok (json_schema_shell cfg_text_reasoned.name (Json.obj
        [("type", Json.str "object"),
         ("description", Json.str ("Output value and reasoning for " ++ cfg_text_reasoned.name)),
         ("properties", Json.obj [("value", fd), ("reasoning", reasoning_prop_schema)]),
         ("required", Json.arr [Json.str "value", Json.str "reasoning"]),
         ("additionalProperties", Json.bool false)])) :=
  ⟨rfl, rfl, c3_reasoning_round_trip cfg_text_reasoned _ rfl rfl⟩


/-- C7: category extraction tests literal containment of each declared
category name in the response text; the first match (in declared order) is
returned for single cardinality, all matches for multiple, and a text
containing none of the names is returned unmodified. -/
theorem c7_category_containment (c : OutputConfig) (content : String)
    (cats : List OutputCategory) (h : c.outputCategories = some cats) :
    ((cats.map (fun k => k.name)).filter (fun n => py_in n content) = [] →
       extract_category_response content c = Json.str content) ∧
    (∀ f fs, (cats.map (fun k => k.name)).filter (fun n => py_in n content) = f :: fs →
       (c.outputCardinality = OutputCardinality.single →
          extract_category_response content c = Json.str f) ∧
       (c.outputCardinality = OutputCardinality.multiple →
          extract_category_response content c = Json.arr ((f :: fs).map Json.str))) := by
  have hmain : extract_category_response content c =
      (match (cats.map (fun k => k.name)).filter (fun n => py_in n content) with
       | [] => Json.str content
       | f :: fs =>
         match c.outputCardinality with
         | OutputCardinality.single => Json.str f
         | OutputCardinality.multiple => Json.arr ((f :: fs).map Json.str)) := by
    cases cats with
    | nil => simp [extract_category_response, h]
    | cons k ks => simp [extract_category_response, h]
  refine ⟨fun hempty => ?_, fun f fs hf => ⟨fun hc => ?_, fun hc => ?_⟩⟩
  · rw [hmain, hempty]
  · rw [hmain, hf, hc]
  · rw [hmain, hf, hc]

/-- Witness for C7: two declared categories, a text containing both; single
cardinality returns the first in declared order. -/
theorem c7_category_containment_witness :
    cfg_sentiment.outputCategories = some [⟨"Positive", "good"⟩, ⟨"Negative", "bad"⟩] ∧
    ([⟨"Positive", "good"⟩, ⟨"Negative", "bad"⟩].map
        (fun k => OutputCategory.name k)).filter
        (fun n => py_in n "Both Positive and Negative apply.") =
      ["Positive", "Negative"] ∧
    cfg_sentiment.outputCardinality = OutputCardinality.single ∧
    extract_category_response "Both Positive and Negative apply." cfg_sentiment =
      Json.str "Positive" :=
  ⟨rfl, by decide, rfl,
   ((c7_category_containment cfg_sentiment "Both Positive and Negative apply."
       [⟨"Positive", "good"⟩, ⟨"Negative", "bad"⟩] rfl).2
     "Positive" ["Negative"] (by decide)).1 rfl⟩

/-- Lookup in an insertion-ordered Python dict. -/
def dict_lookup {α : Type} : List (String × α) → String → Option α
  | [], _ => none
  | (k, v) :: rest, q => if q = k then some v else dict_lookup rest q

/-- Result of `dict_lookup` after a Python-style dict insert: the inserted key now
maps to the new value, all other keys are unchanged. -/
theorem dict_lookup_insert {α : Type} (d : List (String × α)) (k : String) (v : α)
    (q : String) :
    dict_lookup (dict_insert d k v) q = if q = k then some v else dict_lookup d q := by
  induction d with
  | nil => simp [dict_insert, dict_lookup]
  | cons hd tl ih =>
    obtain ⟨k', v'⟩ := hd
    by_cases hk : k' = k
    · subst hk
      by_cases hq : q = k' <;> simp [dict_insert, dict_lookup, hq]
    · by_cases hq : q = k'
      · subst hq
        simp [dict_insert, dict_lookup, hk]
      · simp [dict_insert, dict_lookup, hk, hq, ih]

/-- Folding provider registrations into the dict resolves a lookup to the
most recently registered configuration with that name, falling back to the
accumulator. -/
theorem dict_lookup_foldl_insert (ps : List BaseProviderConfig)
    (d : List (String × BaseProviderConfig)) (q : String) :
    dict_lookup (ps.foldl (fun acc p => dict_insert acc p.integrationName p) d) q =
      (ps.reverse.find? (fun p => p.integrationName == q)).or (dict_lookup d q) := by
  induction ps generalizing d with
  | nil => simp
  | cons p rest ih =>
    simp only [List.foldl_cons, List.reverse_cons, List.find?_append, ih,
      dict_lookup_insert]
    cases hfind : rest.reverse.find? (fun p => p.integrationName == q) with
    | some r => rfl
    | none =>
      cases hpq : (p.integrationName == q) with
      | true =>
        rw [beq_iff_eq] at hpq
        simp [List.find?, hpq, Option.or]
      | false =>
        have hne : ¬ q = p.integrationName := by
          intro hh
          rw [hh] at hpq
          simp at hpq
        simp [List.find?, hpq, hne, Option.or]

/-- C9: constructing the orchestrator from any non-empty provider list
succeeds, and the resulting name-keyed mapping sends every integration name
to the last configuration registered under it (duplicates overwrite, never
fail). -/
theorem c9_last_registered_wins (ps : List BaseProviderConfig) (h : ps ≠ []) :
    ∃ d, enricher_init ps = .ok d ∧
      ∀ q, dict_lookup d q = ps.reverse.find? (fun p => p.integrationName == q) := by
  refine ⟨ps.foldl (fun acc p => dict_insert acc p.integrationName p) [], ?_, ?_⟩
  · simp [enricher_init, h]
  · intro q
    simpa [dict_lookup] using dict_lookup_foldl_insert ps [] q

/-- Witness for C9: two configurations sharing one name; construction
succeeds and the duplicate name resolves to the later configuration. -/
theorem c9_last_registered_wins_witness :
    ([⟨"openai", "k1"⟩, ⟨"openai", "k2"⟩] : List BaseProviderConfig) ≠ [] ∧
    ∃ d, enricher_init [⟨"openai", "k1"⟩, ⟨"openai", "k2"⟩] = .ok d ∧
      ∀ q, dict_lookup d q =
        ([(⟨"openai", "k1"⟩ : BaseProviderConfig), ⟨"openai", "k2"⟩].reverse.find?
          (fun p => p.integrationName == q)) :=
  ⟨by decide, c9_last_registered_wins [⟨"openai", "k1"⟩, ⟨"openai", "k2"⟩] (by decide)⟩

/-- C1 (code evaluated at the failing input): a pandas table of 4 rows
enriched in preview mode with `previewRowCount = 3` and widen (newColumns)
output yields a 3-row table — the rows beyond the preview count are dropped
rather than preserved with unset enrichment fields, because `df` is already
truncated when the alignment branch compares lengths.  In full mode all
rows are preserved. -/
theorem c1_pandas_preview_drops_rows :
    enrich_pandas_index [0, 1, 2, 3] RunMode.preview 3 = [0, 1, 2] ∧
    enrich_pandas_index [0, 1, 2, 3] RunMode.preview 3 ≠ [0, 1, 2, 3] ∧
    enrich_pandas_index [0, 1, 2, 3] RunMode.full 3 = [0, 1, 2, 3] := by
  decide

/-- C2 (code evaluated at the failing input): with a provider that would
fail twice with a transient error and succeed on the third attempt, the
enricher issues exactly one request and records an error marker (`None`) —
there is no retry; the `_call_provider_with_retry` placeholder returns
`None` unconditionally and is never used. -/
theorem c2_no_retry_on_transient_failure :
    call_provider [ProviderOutcome.transientError, ProviderOutcome.transientError,
      ProviderOutcome.success (Json.str "ok")] = (none, 1) ∧
    call_provider_with_retry [ProviderOutcome.transientError, ProviderOutcome.transientError,
      ProviderOutcome.success (Json.str "ok")] = none :=
  ⟨rfl, rfl⟩

/-- C10: the shape of a parsed text value is decided by the list-marker
heuristics, not by the declared cardinality — numbered-bold or bullet
matches yield a list for every cardinality, and a cleaned string comes back
exactly when no marker matched and (for multiple cardinality) at most one
non-empty line is present. -/
theorem c10_text_extraction_shape (c : OutputConfig) (content : String) :
    (findall_numbered content ≠ [] →
       extract_text_response content c =
         Json.arr ((findall_numbered content).map (fun s => Json.str (py_strip s)))) ∧
    (findall_numbered content = [] → findall_bullets content ≠ [] →
       extract_text_response content c =
         Json.arr ((findall_bullets content).map (fun s => Json.str (py_strip s)))) ∧
    (∀ s, extract_text_response content c = Json.str s →
       findall_numbered content = [] ∧ findall_bullets content = [] ∧
       (c.outputCardinality = OutputCardinality.multiple →
          (nonempty_lines content).length ≤ 1) ∧
       s = clean_text content) := by
  refine ⟨fun hn => ?_, fun hn hb => ?_, fun s hs => ?_⟩
  · simp [extract_text_response, hn]
  · simp [extract_text_response, hn, hb]
  · by_cases hn : findall_numbered content = []
    · by_cases hb : findall_bullets content = []
      · by_cases hm : c.outputCardinality = OutputCardinality.multiple ∧
          (nonempty_lines content).length > 1
        · simp [extract_text_response, hn, hb, hm] at hs
        · refine ⟨hn, hb, fun hmul => ?_, ?_⟩
          · exact Nat.le_of_not_lt (fun hgt => hm ⟨hmul, hgt⟩)
          · simp [extract_text_response, hn, hb, hm] at hs
            exact hs.symm
      · simp [extract_text_response, hn, hb] at hs
    · simp [extract_text_response, hn] at hs

/-- Witness for C10: bullet markers on a single-cardinality output still
produce a list value. -/
theorem c10_text_extraction_shape_witness :
    findall_numbered "- a\n- b" = [] ∧
    findall_bullets "- a\n- b" = ["a", "b"] ∧
    cfg_text_plain.outputCardinality = OutputCardinality.single ∧
    extract_text_response "- a\n- b" cfg_text_plain =
      Json.arr [Json.str "a", Json.str "b"] :=
  ⟨by decide, by decide, rfl, by
    have h := (c10_text_extraction_shape cfg_text_plain "- a\n- b").2.1
      (by decide) (by decide)
    exact h.trans (by rfl)⟩

/-- C5 (code evaluated at the failing input): on the claim's own scenario —
an expand (newRows) run whose two processed rows would resolve to value
collections of lengths 2 and 1, so the claim predicts 2 + 1 = 3 output
rows — the run aborts with `AttributeError` at the provider re-resolution
(enricher.py line 310) before any row is processed or any provider called,
producing no output rows at all. -/
theorem c5_newrows_run_aborts_before_rows :
    (values_to_process cfg_sentiment_multi false
        (Json.arr [Json.str "A", Json.str "B"])).length = 2 ∧
    (values_to_process cfg_sentiment_multi false (Json.arr [])).length = 1 ∧
    enrich_polars_newrows_rows [("openai", ⟨"openai", "k"⟩)] [cfg_sentiment_multi] false
        [[("a", Json.str "row1")], [("a", Json.str "row2")]]
        [fun _ => Json.arr [Json.str "A", Json.str "B"], fun _ => Json.arr []] =
      .error "AttributeError: str object has no attribute integrationName" :=
  ⟨rfl, rfl, rfl⟩

/-- C8: whenever `enrich` returns, the configuration's context columns —
the only configuration field any statement of the codebase assigns
through — are unchanged: the pandas path only reads the configuration,
and the polars path, whose no-results branch would append output names to
`contextColumns` through an alias, always raises at line 310 before
reaching it. -/
theorem c8_config_unchanged_on_return (isPandas : Bool)
    (providers : List (String × BaseProviderConfig)) (contextColumns : List String)
    (outputs : List OutputConfig) (rn : Bool) (anyRowResults : Bool)
    (cc : List String)
    (h : enrich_context_columns_after isPandas providers contextColumns outputs rn
           anyRowResults = .ok cc) :
    cc = contextColumns := by
  cases isPandas with
  | true =>
    simp only [enrich_context_columns_after, if_true, Except.ok.injEq] at h
    exact h.symm
  | false =>
    cases providers with
    | nil =>
      simp [enrich_context_columns_after, enrich_polars_context_columns_after,
        polars_resolve_provider] at h
    | cons p ps =>
      simp [enrich_context_columns_after, enrich_polars_context_columns_after,
        polars_resolve_provider] at h

/-- Witness for C8: a concrete pandas run returns with the context columns
unchanged. -/
theorem c8_config_unchanged_witness :
    enrich_context_columns_after true [("openai", ⟨"openai", "k"⟩)] ["a"]
      [cfg_text_reasoned] true false = .ok ["a"] ∧
    (["a"] : List String) = ["a"] :=
  ⟨rfl, c8_config_unchanged_on_return true [("openai", ⟨"openai", "k"⟩)] ["a"]
    [cfg_text_reasoned] true false ["a"] rfl⟩
